import Mathlib

/-!
Shallow embedding of the project/session workspace orchestrator of
Claudiatron-MutiProject (the `MultiProjectLayout` React component) and of the
user-project registry backend (`userProjects.ts` IPC handlers and
`UserProjectService.ts`), with proofs of the specification claims about them.

React `useState` state is modelled as an explicit record (`WorkspaceState`);
event handlers become pure functions from state to state, paired with the list
of key/value writes they issue to the settings store (`api.setSetting`).
JavaScript strings are Lean `String`s, JS `undefined` for a missing settings
key is `Option.none`, and `Date.now()` is an explicit `now : Nat` parameter.
-/

namespace MultiProject

/-- The `Session` shape used by `MultiProjectLayout` (fields of the TS
`Session` type that the component reads or writes).  `isTemporary` marks the
client-side placeholder created by `handleCreateNewSession`; `isNewlyCreated`
is set by the `onSessionCreated` reconciliation callback. -/
structure Session where
  id : String
  project_id : String
  project_path : String
  created_at : Nat
  isTemporary : Bool := false
  isNewlyCreated : Bool := false
  first_message : Option String := none
deriving Repr, DecidableEq

/-- The `Project` shape used by `MultiProjectLayout` (only the fields the
claims touch). -/
structure Project where
  id : String
  path : String
  name : Option String := none
  isUserProject : Bool := false
deriving Repr, DecidableEq

/-- The component state of `MultiProjectLayout`: the `sessions` list and the
current project/session selection (`useState` hooks). -/
structure WorkspaceState where
  sessions : List Session
  currentProject : Option Project
  currentSession : Option Session
deriving Repr, DecidableEq

/-- A batch of writes issued to the settings store (`api.setSetting` /
`api.setSettings` calls), in order. -/
abbrev SettingsWrites := List (String × String)

/-- The placeholder identifier generated by `handleCreateNewSession`:
`` `new-session-${Date.now()}` ``. -/
def tempSessionId (now : Nat) : String :=
  "new-session-" ++ toString now

/-- The temporary session object built by `handleCreateNewSession` for a
project `p` at time `now` (milliseconds): id in the local placeholder format,
`created_at` is `Math.floor(Date.now() / 1000)`, `isTemporary: true`, and no
`first_message`. -/
def tempSession (p : Project) (now : Nat) : Session :=
  { id := tempSessionId now
    project_id := p.id
    project_path := p.path
    created_at := now / 1000
    isTemporary := true
    first_message := none }

/-- The source operation `handleCreateNewSession`: if no project is selected it returns early;
otherwise it builds the temporary session and selects it
(`setCurrentSession(tempSession)`).  It performs no settings write and no
engine call, hence the empty write list. -/
def handleCreateNewSession (st : WorkspaceState) (now : Nat) :
    WorkspaceState × SettingsWrites :=
  match st.currentProject with
  | none => (st, [])
  | some p => ({ st with currentSession := some (tempSession p now) }, [])

/-- The confirmed session object built inside the `onSessionCreated` callback
once the engine reports the real identifier `newSessionId`. -/
def reconciledSession (p : Project) (newSessionId : String) (now : Nat) :
    Session :=
  { id := newSessionId
    project_id := p.id
    project_path := p.path
    created_at := now / 1000
    isNewlyCreated := true }

/-- The `onSessionCreated` callback passed to `ClaudeCodeSession`.  The
component is only mounted when both `currentProject` and `currentSession` are
set; the callback then acts only under the `currentSession?.isTemporary`
guard: it prepends the confirmed session to the sessions list while filtering
out any existing entry with the same id
(`setSessions(prev => [newSession, ...prev.filter(s => s.id !== newSessionId)])`)
and updates the current selection in place, changing only `id` and
`isNewlyCreated` (`setCurrentSession(prev => ({...prev, id: newSessionId,
isNewlyCreated: true}))`). -/
def onSessionCreated (st : WorkspaceState) (newSessionId : String) (now : Nat) :
    WorkspaceState :=
  match st.currentProject, st.currentSession with
  | some p, some cur =>
      if cur.isTemporary then
        { st with
            sessions :=
              reconciledSession p newSessionId now ::
                st.sessions.filter (fun s => s.id != newSessionId)
            currentSession :=
              some { cur with id := newSessionId, isNewlyCreated := true } }
      else st
  | _, _ => st

/-- The `currentSession?.isTemporary` guard as the code evaluates it
(JS optional chaining: `undefined` is falsy). -/
def currentIsTemporary (st : WorkspaceState) : Bool :=
  match st.currentSession with
  | some s => s.isTemporary
  | none => false

/-- The React `key` supplied to the `ClaudeCodeSession` element:
`` currentSession.isTemporary ? `temp-${currentProject.id}` : currentSession.id ``. -/
def renderKey (project : Project) (session : Session) : String :=
  if session.isTemporary then ("temp-" ++ project.id) else session.id

/-- The displayed session list of the right panel: a copy of `sessions`, with
the current temporary session unshifted when no entry with its id is already
present (`findIndex === -1`). -/
def allSessions (st : WorkspaceState) : List Session :=
  match st.currentSession with
  | some cur =>
      if cur.isTemporary && !(st.sessions.any (fun s => s.id == cur.id)) then
        cur :: st.sessions
      else st.sessions
  | none => st.sessions

/-- The source operation `handleSessionSelect`: selects the given session and persists its id under
`ui.currentSession.id` via `api.setSetting` — unconditionally, with no check
of `isTemporary`. -/
def handleSessionSelect (st : WorkspaceState) (session : Session) :
    WorkspaceState × SettingsWrites :=
  ({ st with currentSession := some session },
   [("ui.currentSession.id", session.id)])

/-- The source operation `handleProjectSelect`: selects the project, clears the session selection,
replaces the sessions list with the sessions loaded for that project
(`loadSessions`, passed here as `loadedSessions`), and persists the project id
under `ui.currentProject.id`. -/
def handleProjectSelect (_st : WorkspaceState) (project : Project)
    (loadedSessions : List Session) : WorkspaceState × SettingsWrites :=
  ({ sessions := loadedSessions
     currentProject := some project
     currentSession := none },
   [("ui.currentProject.id", project.id)])

/-- The merged presentation list built in `loadProjects`:
`const allProjects = [...userProjects, ...claudeProjects]`. -/
def allProjects (userProjects claudeProjects : List Project) : List Project :=
  userProjects ++ claudeProjects

/-- JS `haystack.includes(needle)` on char lists: `true` iff `needle` occurs
as a contiguous substring of `haystack` (the empty needle always matches). -/
def charsInclude (needle : List Char) : List Char → Bool
  | [] => needle.isEmpty
  | c :: rest => needle.isPrefixOf (c :: rest) || charsInclude needle rest

/-- JS `String.prototype.includes`. -/
def stringIncludes (s sub : String) : Bool :=
  charsInclude sub.data s.data

/-- JS `String.prototype.toLowerCase`: lowercases each character. -/
def jsToLower (s : String) : String :=
  ⟨s.data.map Char.toLower⟩

/-- The search predicate of the project filter:
`project.path.toLowerCase().includes(searchQuery.toLowerCase()) ||
 project.id.toLowerCase().includes(searchQuery.toLowerCase())`. -/
def projectMatchesQuery (searchQuery : String) (project : Project) : Bool :=
  stringIncludes (jsToLower project.path) (jsToLower searchQuery) ||
    stringIncludes (jsToLower project.id) (jsToLower searchQuery)

/-- The source operation `filteredUserProjects = userProjects.filter(...)`. -/
def filteredUserProjects (userProjects : List Project) (searchQuery : String) :
    List Project :=
  userProjects.filter (projectMatchesQuery searchQuery)

/-- The source operation `filteredClaudeProjects = claudeProjects.filter(...)`, the same predicate
applied independently to the discovered-projects list. -/
def filteredClaudeProjects (claudeProjects : List Project)
    (searchQuery : String) : List Project :=
  claudeProjects.filter (projectMatchesQuery searchQuery)

/-! ### Panel layout persistence (`loadUIState`, `DEFAULT_UI_STATE`) -/

/-- The `UIState` interface of `MultiProjectLayout`. -/
structure UIState where
  leftPanelCollapsed : Bool
  rightPanelCollapsed : Bool
  leftPanelWidth : Int
  rightPanelWidth : Int
  claudeProjectsCollapsed : Bool
deriving Repr, DecidableEq

/-- The source operation `DEFAULT_UI_STATE`. -/
def DEFAULT_UI_STATE : UIState :=
  { leftPanelCollapsed := false
    rightPanelCollapsed := false
    leftPanelWidth := 300
    rightPanelWidth := 300
    claudeProjectsCollapsed := true }

/-- A whitespace character as recognised by JS `parseInt`'s initial trim
(the common cases; exotic Unicode spaces behave the same way for the claims,
which only rely on absent or non-numeric values). -/
def isJsSpace (c : Char) : Bool :=
  c == ' ' || c == '\t' || c == '\n' || c == '\r' ||
    c == '\x0b' || c == '\x0c'

/-- Numeric value of a hexadecimal digit. -/
def hexVal (c : Char) : Nat :=
  if c.isDigit then c.toNat - 48
  else if 'a' ≤ c && c ≤ 'f' then c.toNat - 87
  else c.toNat - 55

/-- Is `c` a hexadecimal digit? -/
def isHexDigitChar (c : Char) : Bool :=
  c.isDigit || ('a' ≤ c && c ≤ 'f') || ('A' ≤ c && c ≤ 'F')

/-- JS `parseInt(s)` (radix unspecified): skip leading whitespace, an optional
sign, then either a `0x`/`0X` hexadecimal literal or leading decimal digits;
`none` models the `NaN` result when no digit can be consumed. -/
def parseIntJS (s : String) : Option Int :=
  let cs := s.data.dropWhile isJsSpace
  let (neg, rest) :=
    match cs with
    | '-' :: r => (true, r)
    | '+' :: r => (false, r)
    | r => (false, r)
  let (digits, isHex) :=
    match rest with
    | '0' :: 'x' :: r => (r.takeWhile isHexDigitChar, true)
    | '0' :: 'X' :: r => (r.takeWhile isHexDigitChar, true)
    | r => (r.takeWhile Char.isDigit, false)
  if digits.isEmpty then none
  else
    let base : Nat := if isHex then 16 else 10
    let v : Nat := digits.foldl (fun acc c => acc * base + hexVal c) 0
    some (if neg then -(v : Int) else (v : Int))

/-- JS `parseInt(x) || default` applied to a possibly-absent settings value:
`parseInt(undefined)` is `NaN` (falsy) and a parsed `0` is falsy too, so both
fall back to the default. -/
def widthOrDefault (stored : Option String) (dflt : Int) : Int :=
  match stored with
  | none => dflt
  | some s =>
      match parseIntJS s with
      | none => dflt
      | some v => if v = 0 then dflt else v

/-- JS `settings[key] === lit` where `settings[key]` may be `undefined`. -/
def strEqLit (stored : Option String) (lit : String) : Bool :=
  match stored with
  | none => false
  | some s => s == lit

/-- The source operation `loadUIState`: builds the `UIState` from the batched settings read.
Collapse flags use `=== 'true'`; the claude-projects flag uses `!== 'false'`
(default collapsed); widths use `parseInt(...) || DEFAULT`. -/
def loadUIState (settings : String → Option String) : UIState :=
  { leftPanelCollapsed := strEqLit (settings ("ui.leftPanel.collapsed")) "true"
    rightPanelCollapsed := strEqLit (settings ("ui.rightPanel.collapsed")) "true"
    leftPanelWidth :=
      widthOrDefault (settings ("ui.leftPanel.width"))
        DEFAULT_UI_STATE.leftPanelWidth
    rightPanelWidth :=
      widthOrDefault (settings ("ui.rightPanel.width"))
        DEFAULT_UI_STATE.rightPanelWidth
    claudeProjectsCollapsed :=
      !(strEqLit (settings ("ui.claudeProjects.collapsed")) "false") }

/-- Position-indexed character check for the UUID shape: hyphens at indices
8, 13, 18 and 23, hexadecimal digits elsewhere. -/
def uuidCheckFrom : Nat → List Char → Bool
  | _, [] => true
  | i, c :: rest =>
      (if i == 8 || i == 13 || i == 18 || i == 23 then c == '-'
       else isHexDigitChar c) && uuidCheckFrom (i + 1) rest

/-- UUID shape of engine-assigned session identifiers (`uuidv4` in
`create-user-project-session`): 36 characters, hyphens at positions 8, 13, 18
and 23, hexadecimal digits elsewhere. -/
def isUuidFormat (s : String) : Bool :=
  s.data.length == 36 && uuidCheckFrom 0 s.data

end MultiProject

namespace UserProjectsBackend

/-! ### User-project registry (`UserProjectService.ts`, `userProjects.ts`) -/

/-- A row of the `user_projects` table (the `UserProject` entity). -/
structure UserProject where
  id : Nat
  name : String
  path : String
  description : Option String := none
  is_active : Bool := true
  created_at : Nat := 0
deriving Repr, DecidableEq

/-- The registry database: rows in insertion order plus the next
auto-generated primary key. -/
structure DB where
  rows : List UserProject
  nextId : Nat
deriving Repr, DecidableEq

/-- The source operation `getUserProjectByPath`: `findOne({ where: { path } })` — first row with
this exact path, with **no** `is_active` filter. -/
def getUserProjectByPath (db : DB) (path : String) : Option UserProject :=
  db.rows.find? (fun r => r.path == path)

/-- The source operation `getAllUserProjects`: `find({ where: { is_active: true }, order:
{ created_at: 'DESC' } })` — only active rows, sorted newest first (modelled
with a stable sort). -/
def getAllUserProjects (db : DB) : List UserProject :=
  (db.rows.filter (fun r => r.is_active)).insertionSort
    (fun a b => b.created_at ≤ a.created_at)

/-- The source operation `createUserProject`: inserts a new row with `is_active` defaulted to
`true`, returning the saved row. -/
def createUserProject (db : DB) (name path : String)
    (description : Option String) (now : Nat) : DB × UserProject :=
  let row : UserProject :=
    { id := db.nextId, name := name, path := path,
      description := description, is_active := true, created_at := now }
  ({ rows := db.rows ++ [row], nextId := db.nextId + 1 }, row)

/-- The source operation `deleteUserProject` (soft delete): finds the row by primary key — throwing
`not found` when absent — and saves it with `is_active := false`. -/
def deleteUserProject (db : DB) (id : Nat) : Except String DB :=
  if db.rows.any (fun r => r.id == id) then
    .ok { db with
            rows := db.rows.map
              (fun r => if r.id == id then { r with is_active := false } else r) }
  else
    .error ("not found")

/-- The user-visible errors of the `add-user-project` IPC handler.
The handler's inner `try` block throws `'Path is not a directory'` for a
non-directory, but its own `catch` replaces that with
`'Cannot access the directory'`, so both filesystem failures surface as the
same inaccessible-path error. -/
inductive AddError where
  | duplicatePath
  | inaccessiblePath
deriving Repr, DecidableEq

/-- A filesystem entry for the `fs.access` / `fs.stat` checks. -/
inductive FSEntry where
  | file
  | directory
deriving Repr, DecidableEq

/-- The filesystem as seen by the handler: `none` means `fs.access` throws. -/
abbrev FS := String → Option FSEntry

/-- The source operation `projectPath.split(/[/\\]/).pop() || 'Unnamed Project'`. -/
def lastPathSegment (projectPath : String) : String :=
  let parts := projectPath.split (fun c => c == '/' || c == '\\')
  let last := parts.getLast? |>.getD ("")
  if last == "" then ("Unnamed Project") else last

/-- The `add-user-project` IPC handler: rejects a duplicate path first (by
`getUserProjectByPath`, active or not), then rejects a missing or
non-directory path, and only then creates the record.  The database is
returned unchanged on every error path. -/
def addUserProject (db : DB) (fs : FS) (projectPath : String)
    (projectName : Option String) (now : Nat) :
    DB × Except AddError UserProject :=
  match getUserProjectByPath db projectPath with
  | some _ => (db, .error .duplicatePath)
  | none =>
      let name :=
        match projectName with
        | some n => n
        | none => lastPathSegment projectPath
      match fs projectPath with
      | none => (db, .error .inaccessiblePath)
      | some .file => (db, .error .inaccessiblePath)
      | some .directory =>
          let (db', row) :=
            createUserProject db name projectPath
              (some ("User project: " ++ name)) now
          (db', .ok row)

end UserProjectsBackend

/-! ### Sample data shared by the concrete witnesses -/

open MultiProject UserProjectsBackend

/-- A user-registered project (spec scenario: registry has `/a`, id `P1`). -/
def sampleProjectA : MultiProject.Project :=
  { id := "P1", path := "/a", isUserProject := true }

/-- A discovered project (spec scenario: discovery has `/a-other`, id `P2`). -/
def sampleProjectB : MultiProject.Project :=
  { id := "P2", path := "/a-other" }

/-- A placeholder session created on `sampleProjectA` at `now = 5000` ms. -/
def sampleTempSession : MultiProject.Session :=
  MultiProject.tempSession sampleProjectA 5000

/-- A confirmed session, as loaded from history. -/
def sampleConfirmedSession : MultiProject.Session :=
  { id := "S0", project_id := "P1", project_path := "/a", created_at := 3 }

/-- Workspace state: project `P1` selected, its placeholder selected, empty
sessions list. -/
def sampleState : MultiProject.WorkspaceState :=
  { sessions := []
    currentProject := some sampleProjectA
    currentSession := some sampleTempSession }

/-- Workspace state: project `P1` selected with a confirmed session selected
(no placeholder anywhere). -/
def sampleConfirmedState : MultiProject.WorkspaceState :=
  { sessions := [sampleConfirmedSession]
    currentProject := some sampleProjectA
    currentSession := some sampleConfirmedSession }

/-! ### Helper lemmas -/

/-- If some row of the registry carries the requested path — active or not —
`add-user-project` fails with the duplicate-path error and returns the
registry untouched. -/
theorem addUserProject_duplicate (db : UserProjectsBackend.DB)
    (fs : UserProjectsBackend.FS) (path : String) (name : Option String)
    (now : Nat) (h : ∃ x ∈ db.rows, x.path = path) :
    UserProjectsBackend.addUserProject db fs path name now =
      (db, .error .duplicatePath) := by
  have hsome : (UserProjectsBackend.getUserProjectByPath db path).isSome := by
    apply List.find?_isSome.mpr
    obtain ⟨x, hx, hp⟩ := h
    exact ⟨x, hx, by simp [hp]⟩
  obtain ⟨r, hr⟩ := Option.isSome_iff_exists.mp hsome
  simp [UserProjectsBackend.addUserProject, hr]

/-! ### Claims -/

/-- Claim C5: For all non-overlapping project lists A (user-registered) and B
(discovered), the merged presentation list built by `loadProjects` equals
`A ++ B`: it has `len(A) + len(B)` items, its first `len(A)` items are exactly
A and the rest exactly B (so every user-registered entry precedes every
discovered entry and each group keeps its source order, with no re-sorting). -/
theorem C5_merge_is_append (A B : List MultiProject.Project)
    (_h : ∀ p ∈ A, ∀ q ∈ B, p.id ≠ q.id) :
    MultiProject.allProjects A B = A ++ B ∧
    (MultiProject.allProjects A B).length = A.length + B.length ∧
    (MultiProject.allProjects A B).take A.length = A ∧
    (MultiProject.allProjects A B).drop A.length = B := by
  refine ⟨rfl, ?_, ?_, ?_⟩ <;>
    simp [MultiProject.allProjects, List.take_left, List.drop_left]

/-- Witness for C5 at the spec scenario lists `[P1]`, `[P2]`. -/
theorem C5_merge_is_append_witness :
    MultiProject.allProjects [sampleProjectA] [sampleProjectB] =
      [sampleProjectA, sampleProjectB] ∧
    (MultiProject.allProjects [sampleProjectA] [sampleProjectB]).length = 2 := by
  have h := C5_merge_is_append [sampleProjectA] [sampleProjectB] (by decide)
  exact ⟨h.1, h.2.1⟩

/-- Claim C6: The project text filter is applied independently to each source
list as a case-insensitive substring match against the project's path and
identifier (membership characterisation below), preserves each group's
relative order without mutating the underlying lists (the result is a sublist
of the input, the input itself being untouched by the pure `filter`), and is
idempotent: `filter(filter(L,q),q) = filter(L,q)`. -/
theorem C6_filter_caseins_sublist_idempotent (L : List MultiProject.Project)
    (q : String) :
    (MultiProject.filteredUserProjects L q).Sublist L ∧
    MultiProject.filteredUserProjects (MultiProject.filteredUserProjects L q) q =
      MultiProject.filteredUserProjects L q ∧
    (∀ p, p ∈ MultiProject.filteredUserProjects L q ↔
        p ∈ L ∧
          (MultiProject.stringIncludes (MultiProject.jsToLower p.path)
              (MultiProject.jsToLower q) ||
            MultiProject.stringIncludes (MultiProject.jsToLower p.id)
              (MultiProject.jsToLower q)) = true) ∧
    (MultiProject.filteredClaudeProjects L q).Sublist L ∧
    MultiProject.filteredClaudeProjects
        (MultiProject.filteredClaudeProjects L q) q =
      MultiProject.filteredClaudeProjects L q ∧
    (∀ p, p ∈ MultiProject.filteredClaudeProjects L q ↔
        p ∈ L ∧ MultiProject.projectMatchesQuery q p = true) := by
  refine ⟨List.filter_sublist L, ?_, ?_, List.filter_sublist L, ?_, ?_⟩
  · rw [MultiProject.filteredUserProjects, MultiProject.filteredUserProjects,
      List.filter_filter]
    simp [MultiProject.filteredUserProjects]
  · intro p
    rw [MultiProject.filteredUserProjects, List.mem_filter,
      MultiProject.projectMatchesQuery]
  · rw [MultiProject.filteredClaudeProjects, MultiProject.filteredClaudeProjects,
      List.filter_filter]
    simp [MultiProject.filteredClaudeProjects]
  · intro p
    rw [MultiProject.filteredClaudeProjects, List.mem_filter]

/-- Witness for C6 at the spec scenario: filtering the merged list for
`a-other` keeps only the discovered project `P2`, and refiltering changes
nothing. -/
theorem C6_filter_caseins_sublist_idempotent_witness :
    MultiProject.filteredClaudeProjects
        (MultiProject.filteredClaudeProjects
          [sampleProjectA, sampleProjectB] ("a-other")) ("a-other") =
      MultiProject.filteredClaudeProjects
        [sampleProjectA, sampleProjectB] ("a-other") ∧
    MultiProject.filteredClaudeProjects
        [sampleProjectA, sampleProjectB] ("a-other") = [sampleProjectB] := by
  have h := C6_filter_caseins_sublist_idempotent
    [sampleProjectA, sampleProjectB] ("a-other")
  exact ⟨h.2.2.2.2.1, by decide⟩

/-- Claim C1: Reconciliation of a currently selected placeholder updates the
selected-session reference in place: the selection after `onSessionCreated` is
the very same session record with only `id` (and the `isNewlyCreated` marker)
changed, the selected project is untouched, and the render key supplied to the
conversation view — `temp-` plus the project id whenever the session is a
placeholder, hence independent of the session identifier — is identical before
and after the identifier swap. -/
theorem C1_reconcile_preserves_render_identity
    (st : MultiProject.WorkspaceState) (p : MultiProject.Project)
    (cur : MultiProject.Session) (r : String) (now : Nat)
    (hp : st.currentProject = some p)
    (hs : st.currentSession = some cur)
    (htemp : cur.isTemporary = true) :
    (MultiProject.onSessionCreated st r now).currentSession =
      some { cur with id := r, isNewlyCreated := true } ∧
    (MultiProject.onSessionCreated st r now).currentProject = some p ∧
    MultiProject.renderKey p { cur with id := r, isNewlyCreated := true } =
      MultiProject.renderKey p cur ∧
    MultiProject.renderKey p cur = "temp-" ++ p.id ∧
    (∀ id1 id2 : String,
      MultiProject.renderKey p { cur with id := id1 } =
        MultiProject.renderKey p { cur with id := id2 }) := by
  refine ⟨?_, ?_, ?_, ?_, ?_⟩ <;>
    simp [MultiProject.onSessionCreated, hp, hs, htemp, MultiProject.renderKey]

/-- Witness for C1: reconciling the selected placeholder of `sampleState` with
the real id `R1`. -/
theorem C1_reconcile_preserves_render_identity_witness :
    (MultiProject.onSessionCreated sampleState ("R1") 6000).currentSession =
      some { sampleTempSession with id := "R1", isNewlyCreated := true } ∧
    MultiProject.renderKey sampleProjectA
        { sampleTempSession with id := "R1", isNewlyCreated := true } =
      MultiProject.renderKey sampleProjectA sampleTempSession ∧
    MultiProject.renderKey sampleProjectA sampleTempSession = "temp-P1" := by
  have h := C1_reconcile_preserves_render_identity sampleState sampleProjectA
    sampleTempSession ("R1") 6000 rfl rfl rfl
  exact ⟨h.1, h.2.2.1, h.2.2.2.1⟩

/-- Claim C3: A session-created callback arriving while the currently selected
session is not a placeholder (stale or duplicate) leaves the whole workspace
state — sessions list and both selections — completely unchanged, silently. -/
theorem C3_stale_callback_is_noop (st : MultiProject.WorkspaceState)
    (r : String) (now : Nat)
    (h : MultiProject.currentIsTemporary st = false) :
    MultiProject.onSessionCreated st r now = st := by
  unfold MultiProject.currentIsTemporary at h
  unfold MultiProject.onSessionCreated
  cases hp : st.currentProject <;> cases hs : st.currentSession <;>
    simp_all

/-- Witness for C3: a stale callback on a state whose selection is a confirmed
session changes nothing. -/
theorem C3_stale_callback_is_noop_witness :
    MultiProject.onSessionCreated sampleConfirmedState ("R1") 6000 =
      sampleConfirmedState :=
  C3_stale_callback_is_noop sampleConfirmedState ("R1") 6000 (by decide)

/-- Claim C2: Reconciling the currently selected placeholder with a real
identifier `r` (starting from a sessions list holding only confirmed entries,
as `loadSessions` delivers) yields a sessions list whose head is the confirmed
entry with id `r`, with every pre-existing entry with id `r` filtered out
(exactly one entry with id `r` remains), and the displayed list (`allSessions`)
contains zero placeholder entries. -/
theorem C2_reconcile_dedups_and_clears_placeholders
    (st : MultiProject.WorkspaceState) (p : MultiProject.Project)
    (cur : MultiProject.Session) (r : String) (now : Nat)
    (hp : st.currentProject = some p)
    (hs : st.currentSession = some cur)
    (htemp : cur.isTemporary = true)
    (hclean : ∀ s ∈ st.sessions, s.isTemporary = false) :
    (MultiProject.onSessionCreated st r now).sessions =
      MultiProject.reconciledSession p r now ::
        st.sessions.filter (fun s => s.id != r) ∧
    (MultiProject.reconciledSession p r now).id = r ∧
    (MultiProject.reconciledSession p r now).isTemporary = false ∧
    (MultiProject.onSessionCreated st r now).sessions.countP
      (fun s => s.id == r) = 1 ∧
    (∀ s ∈ MultiProject.allSessions (MultiProject.onSessionCreated st r now),
      s.isTemporary = false) := by
  have hsessions : (MultiProject.onSessionCreated st r now).sessions =
      MultiProject.reconciledSession p r now ::
        st.sessions.filter (fun s => s.id != r) := by
    simp [MultiProject.onSessionCreated, hp, hs, htemp]
  have hcur : (MultiProject.onSessionCreated st r now).currentSession =
      some { cur with id := r, isNewlyCreated := true } := by
    simp [MultiProject.onSessionCreated, hp, hs, htemp]
  have hfilter_ne : ∀ s ∈ st.sessions.filter (fun s => s.id != r),
      (s.id == r) = false := by
    intro s hsmem
    have := (List.mem_filter.mp hsmem).2
    simpa using this
  have hcount : (MultiProject.onSessionCreated st r now).sessions.countP
      (fun s => s.id == r) = 1 := by
    rw [hsessions, List.countP_cons]
    have h0 : (st.sessions.filter (fun s => s.id != r)).countP
        (fun s => s.id == r) = 0 := by
      rw [List.countP_eq_zero]
      intro a ha
      simp [hfilter_ne a ha]
    simp [h0, MultiProject.reconciledSession]
  refine ⟨hsessions, rfl, rfl, hcount, ?_⟩
  intro s hsmem
  have hany : ((MultiProject.onSessionCreated st r now).sessions.any
      (fun s => s.id == r)) = true := by
    rw [hsessions]
    simp [MultiProject.reconciledSession]
  have hall : MultiProject.allSessions (MultiProject.onSessionCreated st r now) =
      (MultiProject.onSessionCreated st r now).sessions := by
    unfold MultiProject.allSessions
    rw [hcur]
    simp only [htemp]
    simp [hany]
  rw [hall, hsessions] at hsmem
  rcases List.mem_cons.mp hsmem with hhead | htail
  · rw [hhead]; rfl
  · exact hclean s (List.mem_filter.mp htail).1

/-- Witness for C2: reconciling the placeholder of `sampleState` (empty prior
sessions list) with real id `R1`. -/
theorem C2_reconcile_dedups_and_clears_placeholders_witness :
    (MultiProject.onSessionCreated sampleState ("R1") 6000).sessions =
      [MultiProject.reconciledSession sampleProjectA ("R1") 6000] ∧
    (MultiProject.reconciledSession sampleProjectA ("R1") 6000).id = "R1" ∧
    (MultiProject.onSessionCreated sampleState ("R1") 6000).sessions.countP
      (fun s => s.id == "R1") = 1 := by
  have h := C2_reconcile_dedups_and_clears_placeholders sampleState
    sampleProjectA sampleTempSession ("R1") 6000 rfl rfl rfl
    (by intro s hs; simp [sampleState] at hs)
  exact ⟨h.1, h.2.1, h.2.2.2.1⟩

/-- Claim C4: A "new session" action with a project selected creates a
placeholder whose identifier has the local `new-session-` format — which is
not the engine's UUID format — with `created_at` set to the current time (in
seconds), no first-message preview, marked temporary; it immediately becomes
the selected session while the handler performs no settings write or engine
call (empty effect list) and leaves the stored sessions list untouched; and
the displayed list keeps at most one placeholder (a previous placeholder for
the project, living only in the selection, is replaced). -/
theorem C4_create_placeholder_session (st : MultiProject.WorkspaceState)
    (p : MultiProject.Project) (now : Nat)
    (hp : st.currentProject = some p)
    (hclean : ∀ s ∈ st.sessions, s.isTemporary = false) :
    (MultiProject.handleCreateNewSession st now).1.currentSession =
      some (MultiProject.tempSession p now) ∧
    (MultiProject.tempSession p now).id = "new-session-" ++ toString now ∧
    MultiProject.isUuidFormat (MultiProject.tempSession p now).id = false ∧
    (MultiProject.tempSession p now).created_at = now / 1000 ∧
    (MultiProject.tempSession p now).first_message = none ∧
    (MultiProject.tempSession p now).isTemporary = true ∧
    (MultiProject.handleCreateNewSession st now).2 = [] ∧
    (MultiProject.handleCreateNewSession st now).1.sessions = st.sessions ∧
    (MultiProject.allSessions
        (MultiProject.handleCreateNewSession st now).1).countP
      (fun s => s.isTemporary) ≤ 1 := by
  have hstep : MultiProject.handleCreateNewSession st now =
      ({ st with currentSession := some (MultiProject.tempSession p now) },
       []) := by
    unfold MultiProject.handleCreateNewSession
    rw [hp]
  have hid : MultiProject.isUuidFormat (MultiProject.tempSession p now).id =
      false := by
    have hdata : (MultiProject.tempSessionId now).data =
        'n' :: ("ew-session-" ++ toString now).data := by
      simp [MultiProject.tempSessionId, String.data_append]
    simp [MultiProject.tempSession, MultiProject.isUuidFormat, hdata,
      MultiProject.uuidCheckFrom, MultiProject.isHexDigitChar]
  have hcount0 : st.sessions.countP (fun s => s.isTemporary) = 0 := by
    rw [List.countP_eq_zero]
    intro a ha
    simp [hclean a ha]
  refine ⟨by rw [hstep], rfl, hid, rfl, rfl, rfl, by rw [hstep],
    by rw [hstep], ?_⟩
  rw [hstep]
  unfold MultiProject.allSessions
  simp only [MultiProject.tempSession]
  split
  · rw [List.countP_cons]
    simp [hcount0]
  · simp [hcount0]

/-- Witness for C4: a "new session" action on `sampleState` (which already
holds a selected placeholder — it is replaced, and the displayed list keeps at
most one placeholder). -/
theorem C4_create_placeholder_session_witness :
    (MultiProject.handleCreateNewSession sampleState 7000).1.currentSession =
      some (MultiProject.tempSession sampleProjectA 7000) ∧
    (MultiProject.tempSession sampleProjectA 7000).id = "new-session-7000" ∧
    MultiProject.isUuidFormat ("new-session-7000") = false ∧
    (MultiProject.handleCreateNewSession sampleState 7000).2 = [] ∧
    (MultiProject.allSessions
        (MultiProject.handleCreateNewSession sampleState 7000).1).countP
      (fun s => s.isTemporary) ≤ 1 := by
  have h := C4_create_placeholder_session sampleState sampleProjectA 7000 rfl
    (by intro s hs; simp [sampleState] at hs)
  refine ⟨h.1, h.2.1, ?_, h.2.2.2.2.2.2.1, h.2.2.2.2.2.2.2.2⟩
  have := h.2.2.1
  rwa [h.2.1] at this

/-- Claim C7, counterexample: The claim "a placeholder session's selection is
never persisted to the store" is false: `handleSessionSelect`, reachable by
clicking the placeholder entry shown in the session list, persists the
placeholder's id under `ui.currentSession.id` unconditionally.  Concretely,
selecting the placeholder of `sampleState` issues a non-empty settings
write carrying the placeholder identifier. -/
theorem C7_placeholder_selection_is_persisted_counterexample :
    sampleTempSession.isTemporary = true ∧
    sampleTempSession ∈ MultiProject.allSessions sampleState ∧
    (MultiProject.handleSessionSelect sampleState sampleTempSession).2 =
      [("ui.currentSession.id", "new-session-5000")] ∧
    (MultiProject.handleSessionSelect sampleState sampleTempSession).2 ≠
      [] := by
  refine ⟨rfl, ?_, by decide, by decide⟩
  decide

/-- Claim C7, amended: Selecting a session from the list persists its
identifier under `ui.currentSession.id` (the project identifier is persisted
under `ui.currentProject.id` when the project is selected) and makes it the
current selection; this write happens for every session passed to
`handleSessionSelect`, placeholders included.  Only the implicit selection
performed by creating a new placeholder (`handleCreateNewSession`) issues no
settings write. -/
theorem C7_selection_persistence (st : MultiProject.WorkspaceState)
    (session : MultiProject.Session) (project : MultiProject.Project)
    (loaded : List MultiProject.Session) (now : Nat) :
    (MultiProject.handleSessionSelect st session).1.currentSession =
      some session ∧
    (MultiProject.handleSessionSelect st session).2 =
      [("ui.currentSession.id", session.id)] ∧
    (MultiProject.handleProjectSelect st project loaded).2 =
      [("ui.currentProject.id", project.id)] ∧
    (MultiProject.handleCreateNewSession st now).2 = [] := by
  refine ⟨rfl, rfl, rfl, ?_⟩
  unfold MultiProject.handleCreateNewSession
  cases st.currentProject <;> rfl

/-- Claim C8: `loadUIState` resolves each plain collapse flag to `true` exactly
when the stored string is exactly `"true"` (so absence or anything else gives
the default `false`), resolves the discovered-projects (claude-projects)
collapse flag to expanded (`false`) exactly when the stored string is exactly
`"false"` (so its default is collapsed), and resolves a panel width to the
documented default `300` whenever the stored value is absent or `parseInt`
cannot parse it. -/
theorem C8_load_ui_state_defaults (settings : String → Option String) :
    ((MultiProject.loadUIState settings).leftPanelCollapsed = true ↔
      settings ("ui.leftPanel.collapsed") = some ("true")) ∧
    ((MultiProject.loadUIState settings).rightPanelCollapsed = true ↔
      settings ("ui.rightPanel.collapsed") = some ("true")) ∧
    ((MultiProject.loadUIState settings).claudeProjectsCollapsed = false ↔
      settings ("ui.claudeProjects.collapsed") = some ("false")) ∧
    (settings ("ui.leftPanel.width") = none →
      (MultiProject.loadUIState settings).leftPanelWidth = 300) ∧
    (∀ s, settings ("ui.leftPanel.width") = some s →
      MultiProject.parseIntJS s = none →
      (MultiProject.loadUIState settings).leftPanelWidth = 300) ∧
    (settings ("ui.rightPanel.width") = none →
      (MultiProject.loadUIState settings).rightPanelWidth = 300) ∧
    (∀ s, settings ("ui.rightPanel.width") = some s →
      MultiProject.parseIntJS s = none →
      (MultiProject.loadUIState settings).rightPanelWidth = 300) := by
  have hflag : ∀ o : Option String, ∀ lit : String,
      (MultiProject.strEqLit o lit = true ↔ o = some lit) := by
    intro o lit
    cases o with
    | none => simp [MultiProject.strEqLit]
    | some s => simp [MultiProject.strEqLit]
  refine ⟨hflag _ ("true"), hflag _ ("true"), ?_, ?_, ?_, ?_, ?_⟩
  · constructor
    · intro h
      have : MultiProject.strEqLit
          (settings ("ui.claudeProjects.collapsed")) "false" = true := by
        simpa [MultiProject.loadUIState] using h
      exact (hflag _ ("false")).mp this
    · intro h
      simp [MultiProject.loadUIState, h, MultiProject.strEqLit]
  · intro h
    simp [MultiProject.loadUIState, h, MultiProject.widthOrDefault,
      MultiProject.DEFAULT_UI_STATE]
  · intro s hs hparse
    simp [MultiProject.loadUIState, hs, MultiProject.widthOrDefault, hparse,
      MultiProject.DEFAULT_UI_STATE]
  · intro h
    simp [MultiProject.loadUIState, h, MultiProject.widthOrDefault,
      MultiProject.DEFAULT_UI_STATE]
  · intro s hs hparse
    simp [MultiProject.loadUIState, hs, MultiProject.widthOrDefault, hparse,
      MultiProject.DEFAULT_UI_STATE]

/-- Concrete settings store: left collapse flag stored as `"true"`, the left
width absent, the right width stored as the unparsable string `"px40"`,
everything else absent. -/
def sampleSettings : String → Option String :=
  fun k =>
    if k == "ui.leftPanel.collapsed" then some ("true")
    else if k == "ui.rightPanel.width" then some ("px40") else none

/-- Witness for C8 at `sampleSettings`: stored `"true"` flag resolves true,
missing flag resolves to default, absent width and unparsable width both
resolve to 300, absent claude-projects flag resolves to collapsed. -/
theorem C8_load_ui_state_defaults_witness :
    (MultiProject.loadUIState sampleSettings).leftPanelCollapsed = true ∧
    (MultiProject.loadUIState sampleSettings).rightPanelCollapsed = false ∧
    (MultiProject.loadUIState sampleSettings).claudeProjectsCollapsed = true ∧
    (MultiProject.loadUIState sampleSettings).leftPanelWidth = 300 ∧
    (MultiProject.loadUIState sampleSettings).rightPanelWidth = 300 := by
  have h := C8_load_ui_state_defaults sampleSettings
  refine ⟨h.1.mpr (by decide), ?_, ?_, h.2.2.2.1 (by decide),
    h.2.2.2.2.2.2 ("px40") (by decide) (by decide)⟩
  · by_contra hc
    have := h.2.1.mp (by simpa using hc)
    simp [sampleSettings] at this
  · by_contra hc
    have := h.2.2.1.mp (by simpa using hc)
    simp [sampleSettings] at this

/-- Claim C9: The `add-user-project` handler rejects a duplicate path (a record
with that exact path already exists) and rejects a missing or non-directory
path, as user-visible errors; on every such failure the database is returned
untouched and no record is created; the database changes — a record is
created, appended with the requested path and active — only when both checks
pass. -/
theorem C9_add_project_validations (db : UserProjectsBackend.DB)
    (fs : UserProjectsBackend.FS) (projectPath : String)
    (projectName : Option String) (now : Nat) :
    ((UserProjectsBackend.getUserProjectByPath db projectPath).isSome →
      UserProjectsBackend.addUserProject db fs projectPath projectName now =
        (db, .error .duplicatePath)) ∧
    (UserProjectsBackend.getUserProjectByPath db projectPath = none →
      fs projectPath ≠ some .directory →
      UserProjectsBackend.addUserProject db fs projectPath projectName now =
        (db, .error .inaccessiblePath)) ∧
    ((UserProjectsBackend.addUserProject db fs projectPath projectName
        now).1 ≠ db →
      UserProjectsBackend.getUserProjectByPath db projectPath = none ∧
        fs projectPath = some .directory) ∧
    (UserProjectsBackend.getUserProjectByPath db projectPath = none →
      fs projectPath = some .directory →
      ∃ row,
        UserProjectsBackend.addUserProject db fs projectPath projectName now =
          ({ rows := db.rows ++ [row], nextId := db.nextId + 1 }, .ok row) ∧
        row.path = projectPath ∧ row.is_active = true) := by
  refine ⟨?_, ?_, ?_, ?_⟩
  · intro h
    obtain ⟨r, hr⟩ := Option.isSome_iff_exists.mp h
    simp [UserProjectsBackend.addUserProject, hr]
  · intro hdup hfs
    cases hfse : fs projectPath with
    | none => simp [UserProjectsBackend.addUserProject, hdup, hfse]
    | some e =>
        cases e with
        | file => simp [UserProjectsBackend.addUserProject, hdup, hfse]
        | directory => exact absurd hfse hfs
  · intro hne
    cases hdup : UserProjectsBackend.getUserProjectByPath db projectPath with
    | some r =>
        exact absurd (by simp [UserProjectsBackend.addUserProject, hdup]) hne
    | none =>
        cases hfse : fs projectPath with
        | none =>
            exact absurd
              (by simp [UserProjectsBackend.addUserProject, hdup, hfse]) hne
        | some e =>
            cases e with
            | file =>
                exact absurd
                  (by simp [UserProjectsBackend.addUserProject, hdup, hfse])
                  hne
            | directory => exact ⟨rfl, rfl⟩
  · intro hdup hfs
    unfold UserProjectsBackend.addUserProject
    rw [hdup, hfs]
    exact ⟨_, rfl, rfl, rfl⟩

/-- A registered, active user project row for the backend witnesses. -/
def sampleRow : UserProjectsBackend.UserProject :=
  { id := 1, name := "a", path := "/a", description := none,
    is_active := true, created_at := 10 }

/-- A registry holding `sampleRow`. -/
def sampleDB : UserProjectsBackend.DB :=
  { rows := [sampleRow], nextId := 2 }

/-- A filesystem on which every path is an accessible directory. -/
def sampleFS : UserProjectsBackend.FS :=
  fun _ => some .directory

/-- A filesystem on which every path is inaccessible. -/
def sampleMissingFS : UserProjectsBackend.FS :=
  fun _ => none

/-- Witness for C9: adding `/a` to a registry already holding `/a` fails as a
duplicate leaving the registry untouched, and adding `/b` when the path is
inaccessible fails leaving the registry untouched. -/
theorem C9_add_project_validations_witness :
    UserProjectsBackend.addUserProject sampleDB sampleFS ("/a") none 99 =
      (sampleDB, .error .duplicatePath) ∧
    UserProjectsBackend.addUserProject sampleDB sampleMissingFS ("/b") none 99 =
      (sampleDB, .error .inaccessiblePath) := by
  have h1 := C9_add_project_validations sampleDB sampleFS ("/a") none 99
  have h2 := C9_add_project_validations sampleDB sampleMissingFS ("/b") none 99
  exact ⟨h1.1 (by decide), h2.2.1 (by decide) (by decide)⟩

/-- Claim C10: The duplicate-path check of `add-user-project` does not filter by
the active flag: after a project row is soft-removed (`deleteUserProject` sets
`is_active := false`), adding a project with the same path is still rejected
as a duplicate with the registry untouched, even though the removed row no
longer appears in `getAllUserProjects` (which returns only active rows). -/
theorem C10_soft_removed_path_still_blocks (db db' : UserProjectsBackend.DB)
    (fs : UserProjectsBackend.FS) (r : UserProjectsBackend.UserProject)
    (projectName : Option String) (now : Nat)
    (hmem : r ∈ db.rows)
    (hdel : UserProjectsBackend.deleteUserProject db r.id = .ok db') :
    UserProjectsBackend.addUserProject db' fs r.path projectName now =
      (db', .error .duplicatePath) ∧
    (∀ x ∈ UserProjectsBackend.getAllUserProjects db', x.id ≠ r.id) := by
  have hany : (db.rows.any (fun x => x.id == r.id)) = true :=
    List.any_eq_true.mpr ⟨r, hmem, by simp⟩
  unfold UserProjectsBackend.deleteUserProject at hdel
  rw [if_pos hany] at hdel
  injection hdel with hdb'
  constructor
  · apply addUserProject_duplicate
    refine ⟨{ r with is_active := false }, ?_, rfl⟩
    rw [← hdb']
    exact List.mem_map.mpr ⟨r, hmem, by simp⟩
  · intro x hx
    unfold UserProjectsBackend.getAllUserProjects at hx
    have hxf : x ∈ db'.rows.filter (fun z => z.is_active) :=
      (List.perm_insertionSort _ _).mem_iff.mp hx
    have hxact : x.is_active = true := by
      simpa using (List.mem_filter.mp hxf).2
    have hxrows : x ∈ db'.rows := (List.mem_filter.mp hxf).1
    rw [← hdb'] at hxrows
    obtain ⟨y, hymem, hyx⟩ := List.mem_map.mp hxrows
    by_cases hid : y.id = r.id
    · exfalso
      rw [if_pos (by simpa using hid)] at hyx
      rw [← hyx] at hxact
      simp at hxact
    · rw [if_neg (by simpa using hid)] at hyx
      rw [← hyx]
      exact hid

/-- The registry `sampleDB` after soft-removing row 1. -/
def sampleRemovedDB : UserProjectsBackend.DB :=
  { rows := [{ sampleRow with is_active := false }], nextId := 2 }

/-- Witness for C10: after soft-removing `/a`, re-adding `/a` is rejected as a
duplicate even on a fully accessible filesystem, while `/a` no longer appears
among the listed (active) user projects. -/
theorem C10_soft_removed_path_still_blocks_witness :
    UserProjectsBackend.addUserProject sampleRemovedDB sampleFS ("/a") none 99 =
      (sampleRemovedDB, .error .duplicatePath) ∧
    (∀ x ∈ UserProjectsBackend.getAllUserProjects sampleRemovedDB,
      x.id ≠ 1) := by
  have h := C10_soft_removed_path_still_blocks sampleDB sampleRemovedDB
    sampleFS sampleRow none 99 (by decide) (by rfl)
  exact h
